import Mathlib

/-!
Shallow embedding of the Databricks/Telegram notification bot (src/app.py).

Remote services (the Databricks workspace client) are modelled as an
environment of fallible calls (`Except String`); the chat transport is
modelled as a trace of outputs (`Out`): messages sent, callback
acknowledgments, and remote mutations (job update, run repair).
Each handler function returns the trace it emits paired with
`Except String Unit`: `.error e` means an exception escaped the handler
(the source function has no try/except around the failing call).

Timestamps are epoch milliseconds (`Nat`).  `TZ = pytz.timezone("Asia/Kolkata")`
is a fixed offset of +5:30 (19800000 ms, no DST).  `date.today()` depends on
the host clock and host time zone: it is modelled by `date_today nowMs hostOffsetMs`,
the calendar-day index of the current instant shifted by the host UTC offset.
-/

/-- Result state of a Databricks run (databricks.sdk.service.jobs.RunResultState);
`none` on a `Run` means the run has not reached a terminal result yet. -/
inductive RunResultState
  | SUCCESS
  | FAILED
  | CANCELED
  | TIMEDOUT
deriving DecidableEq, Repr

/-- `run.state`: result state plus optional state message. -/
structure RunState where
  result_state : Option RunResultState
  state_message : Option String
deriving DecidableEq, Repr

/-- A job run as consumed by app.py: id, optional start/end epoch-ms, state. -/
structure Run where
  run_id : Nat
  start_time : Option Nat
  end_time : Option Nat
  state : RunState
deriving DecidableEq, Repr

/-- A cron schedule attached to a job; `pause_status` is the string field the
source compares with "PAUSED" and assigns "PAUSED"/"UNPAUSED" to. -/
structure CronSchedule where
  quartz_cron_expression : String
  timezone_id : String
  pause_status : Option String
deriving DecidableEq, Repr

/-- Job settings: the fields app.py reads (`name`, `schedule`) plus
representative further settings fields carried around unchanged
(`tasks`, `max_concurrent_runs`), used to state the frame property of
the schedule toggle. -/
structure JobSettings where
  name : String
  schedule : Option CronSchedule
  tasks : List String
  max_concurrent_runs : Nat
deriving DecidableEq, Repr

/-- A Databricks job as consumed by app.py. -/
structure Job where
  job_id : Nat
  creator_user_name : String
  settings : JobSettings
deriving DecidableEq, Repr

/-- The remote environment: configured operator identity (EMAIL) and the
workspace-client calls used by app.py, each of which may fail. -/
structure Env where
  email : String
  list_jobs : Except String (List Job)
  list_runs : Nat → Except String (List Run)
  get_job : Nat → Except String Job
  repair_run : Nat → Except String Nat
  update_job : Nat → JobSettings → Except String Unit

/-- Offset of the configured time zone Asia/Kolkata, in milliseconds. -/
def tzOffsetMs : Int := 19800000

/-- Calendar-day index of an epoch-ms timestamp converted to the configured
time zone: `datetime.fromtimestamp(ms / 1000, tz=TZ).date()`. -/
def tzDateOf (ms : Nat) : Int := Int.fdiv ((ms : Int) + tzOffsetMs) 86400000

/-- `date.today()`: calendar-day index of the current instant in the HOST
system's time zone (offset `hostOffsetMs` from UTC). -/
def date_today (nowMs : Nat) (hostOffsetMs : Int) : Int :=
  Int.fdiv ((nowMs : Int) + hostOffsetMs) 86400000

/-- `datetime.fromtimestamp(ms / 1000, tz=TZ).strftime("%H:%M")` as an
(hour, minute) pair in the configured time zone. -/
def hhmm (ms : Nat) : Nat × Nat :=
  let s := (ms / 1000 + 19800) % 86400
  (s / 3600, s % 3600 / 60)

/-- Python truthiness of an optional integer field (`if run.end_time:`):
false for `None` and for `0`. -/
def optTruthy : Option Nat → Bool
  | none => false
  | some v => v != 0

/-- An inline-keyboard callback action, as serialized into callback_data. -/
inductive BtnAction
  | check_status (job_id : Nat)
  | repair (run_id : Nat)
  | pause (job_id : Nat)
  | resume (job_id : Nat)
deriving DecidableEq, Repr

/-- The time span rendered by check_job_today_status: either
"start – end" or "Started start (still running)". -/
inductive DurDisplay
  | range (startHM endHM : Nat × Nat)
  | stillRunning (startHM : Nat × Nat)
deriving DecidableEq, Repr

/-- Messages sent to the chat, abstracted to their data content. -/
inductive Msg
  | helpText
  | noJobs
  | jobsSummary (n : Nat)
  | jobEntry (name : String) (job_id : Nat) (btn : BtnAction)
  | noFailures
  | failedSummary (n : Nat)
  | failedEntry (jobName : String) (run_id : Nat) (startHM endHM : Nat × Nat) (btn : BtnAction)
  | pauseSummary (n : Nat)
  | noRunsToday (name : String)
  | statusSuccess (name : String) (dur : DurDisplay) (run_id : Nat)
  | statusFailed (name : String) (dur : DurDisplay) (run_id : Nat) (stateMsg : String) (btn : BtnAction)
  | statusRunning (name : String) (dur : DurDisplay) (run_id : Nat)
  | noSchedule (job_id : Nat)
  | scheduleToggled (name : String) (verb : String)
  | toggleError (err : String)
  | repairStarted (orig newRun : Nat)
  | repairError (err : String)
  | statusError (err : String)
deriving DecidableEq, Repr

/-- One observable output of a handler: a chat message, a callback
acknowledgment (answer_callback_query), or a remote mutation. -/
inductive Out
  | send (m : Msg)
  | ack (text : String)
  | updateCall (job_id : Nat) (new_settings : JobSettings)
  | repairCall (run_id : Nat)
deriving DecidableEq, Repr

/-- The jobs kept by the listing comprehensions:
`[... for j in w.jobs.list() if j.creator_user_name == EMAIL]`. -/
def owned_jobs (env : Env) (js : List Job) : List Job :=
  js.filter (fun j => j.creator_user_name == env.email)

/-- send_job_list (app.py:65-90). -/
def send_job_list (env : Env) : List Out × Except String Unit :=
  match env.list_jobs with
  | .error e => ([], .error e)
  | .ok js =>
    let jobs := owned_jobs env js
    if jobs.isEmpty then ([.send .noJobs], .ok ())
    else
      (.send (.jobsSummary jobs.length) ::
        jobs.map (fun j => .send (.jobEntry j.settings.name j.job_id (.check_status j.job_id))),
       .ok ())

/-- The failure-scan filter (app.py:109-113): result FAILED, truthy end time,
end time's configured-tz date equal to `today`. -/
def run_failed_today (today : Int) (r : Run) : Bool :=
  decide (r.state.result_state = some RunResultState.FAILED) && optTruthy r.end_time &&
    decide (tzDateOf (r.end_time.getD 0) = today)

/-- Entry collected for one failed run (the dict built at app.py:114-121). -/
structure FEntry where
  job : String
  run_id : Nat
  start : Option Nat
  endT : Option Nat
deriving DecidableEq, Repr

/-- Failed entries contributed by one job's runs. -/
def job_failures (today : Int) (name : String) (runs : List Run) : List FEntry :=
  (runs.filter (run_failed_today today)).map
    (fun r => { job := name, run_id := r.run_id, start := r.start_time, endT := r.end_time })

/-- The nested loops of databricks_job_notification (app.py:105-121):
skip jobs not owned by EMAIL, list runs per job (which may raise), collect
failed-today entries. -/
def collect_failed_jobs (env : Env) (today : Int) : List Job → Except String (List FEntry)
  | [] => .ok []
  | j :: rest =>
    if j.creator_user_name == env.email then
      match env.list_runs j.job_id with
      | .error e => .error e
      | .ok runs =>
        match collect_failed_jobs env today rest with
        | .error e => .error e
        | .ok fs => .ok (job_failures today j.settings.name runs ++ fs)
    else collect_failed_jobs env today rest

/-- The per-failure message loop (app.py:128-146); `f["start"] / 1000` raises
a TypeError when the stored start (or end) time is None. -/
def render_failed : List FEntry → List Out × Except String Unit
  | [] => ([], .ok ())
  | f :: rest =>
    match f.start, f.endT with
    | some s, some e =>
      let tail := render_failed rest
      (.send (.failedEntry f.job f.run_id (hhmm s) (hhmm e) (.repair f.run_id)) :: tail.1, tail.2)
    | _, _ => ([], .error "TypeError")

/-- Body of databricks_job_notification for a given value of `date.today()`. -/
def scan_at (env : Env) (today : Int) : List Out × Except String Unit :=
  match env.list_jobs with
  | .error e => ([], .error e)
  | .ok js =>
    match collect_failed_jobs env today js with
    | .error e => ([], .error e)
    | .ok [] => ([.send .noFailures], .ok ())
    | .ok fs =>
      let rendered := render_failed fs
      (.send (.failedSummary fs.length) :: rendered.1, rendered.2)

/-- databricks_job_notification (app.py:99-146): the failure scan run by the
scheduler ticks and by /failed; `today = date.today()` uses the host clock. -/
def databricks_job_notification (env : Env) (nowMs : Nat) (hostOffsetMs : Int) :
    List Out × Except String Unit :=
  scan_at env (date_today nowMs hostOffsetMs)

/-- The runs_today filter (app.py:251-258): truthy start time whose
configured-tz date equals `today`. -/
def run_starts_today (today : Int) (r : Run) : Bool :=
  optTruthy r.start_time && decide (tzDateOf (r.start_time.getD 0) = today)

/-- `runs_today` list of check_job_today_status. -/
def runs_today_of (runs : List Run) (today : Int) : List Run :=
  runs.filter (run_starts_today today)

/-- `max(runs_today, key=lambda x: x.start_time)`: left fold keeping the
current element unless a strictly larger start time appears. -/
def latest_run (r0 : Run) (rest : List Run) : Run :=
  rest.foldl (fun acc x => if acc.start_time.getD 0 < x.start_time.getD 0 then x else acc) r0

/-- The `dur` display (app.py:268-273): a range when the end time is truthy,
otherwise "still running". -/
def dur_display (r : Run) : DurDisplay :=
  if optTruthy r.end_time then .range (hhmm (r.start_time.getD 0)) (hhmm (r.end_time.getD 0))
  else .stillRunning (hhmm (r.start_time.getD 0))

/-- The result-state branch of check_job_today_status (app.py:275-292):
SUCCESS and FAILED are matched explicitly, every other state renders the
RUNNING message. -/
def classify_run (name : String) (r : Run) : Out :=
  match r.state.result_state with
  | some RunResultState.SUCCESS => .send (.statusSuccess name (dur_display r) r.run_id)
  | some RunResultState.FAILED =>
      .send (.statusFailed name (dur_display r) r.run_id
        (r.state.state_message.getD "") (.repair r.run_id))
  | _ => .send (.statusRunning name (dur_display r) r.run_id)

/-- Body of check_job_today_status for a given value of `date.today()`;
the whole body is inside try/except, so remote errors become a single
error message and never escape. -/
def check_status_at (env : Env) (job_id : Nat) (today : Int) : List Out × Except String Unit :=
  match env.get_job job_id with
  | .error e => ([.send (.statusError e)], .ok ())
  | .ok job =>
    match env.list_runs job_id with
    | .error e => ([.send (.statusError e)], .ok ())
    | .ok runs =>
      match runs_today_of runs today with
      | [] => ([.send (.noRunsToday job.settings.name)], .ok ())
      | r0 :: rest => ([classify_run job.settings.name (latest_run r0 rest)], .ok ())

/-- check_job_today_status (app.py:246-297). -/
def check_job_today_status (env : Env) (job_id : Nat) (nowMs : Nat) (hostOffsetMs : Int) :
    List Out × Except String Unit :=
  check_status_at env job_id (date_today nowMs hostOffsetMs)

/-- The pause/resume button choice of send_pause_job_list (app.py:175-178):
`pause` when a schedule exists and its pause_status differs from "PAUSED",
otherwise `resume`. -/
def pause_action_for (job_id : Nat) (sched : Option CronSchedule) : BtnAction :=
  match sched with
  | some s => if s.pause_status != some "PAUSED" then .pause job_id else .resume job_id
  | none => .resume job_id

/-- send_pause_job_list (app.py:155-190). -/
def send_pause_job_list (env : Env) : List Out × Except String Unit :=
  match env.list_jobs with
  | .error e => ([], .error e)
  | .ok js =>
    let jobs := owned_jobs env js
    if jobs.isEmpty then ([.send .noJobs], .ok ())
    else
      (.send (.pauseSummary jobs.length) ::
        jobs.map (fun j =>
          .send (.jobEntry j.settings.name j.job_id
            (pause_action_for j.job_id j.settings.schedule))),
       .ok ())

/-- toggle_job_schedule (app.py:192-208): fetch the job; without a schedule
report and stop; otherwise set pause_status on the fetched settings and push
them; any raised error is caught and reported. -/
def toggle_job_schedule (env : Env) (job_id : Nat) (pause : Bool) :
    List Out × Except String Unit :=
  match env.get_job job_id with
  | .error e => ([.send (.toggleError e)], .ok ())
  | .ok job =>
    match job.settings.schedule with
    | none => ([.send (.noSchedule job_id)], .ok ())
    | some s =>
      let ns : JobSettings :=
        { job.settings with
          schedule := some { s with pause_status := some (if pause then "PAUSED" else "UNPAUSED") } }
      match env.update_job job_id ns with
      | .error e => ([.updateCall job_id ns, .send (.toggleError e)], .ok ())
      | .ok _ =>
        ([.updateCall job_id ns,
          .send (.scheduleToggled job.settings.name (if pause then "paused" else "resumed"))],
         .ok ())

/-- repair_databricks_job (app.py:302-311). -/
def repair_databricks_job (env : Env) (run_id : Nat) : List Out × Except String Unit :=
  match env.repair_run run_id with
  | .ok newId => ([.repairCall run_id, .send (.repairStarted run_id newId)], .ok ())
  | .error e => ([.repairCall run_id, .send (.repairError e)], .ok ())

/-- The callback payload as seen by handle_callback after `json.loads`:
either parsing raised (malformed) or a dict whose "action", "job_id" and
"run_id" keys may each be absent (`data.get("action")` is `none` when absent;
`data["job_id"]` raises KeyError when `none`). -/
inductive CallbackData
  | malformed
  | parsed (action : Option String) (job_id : Option Nat) (run_id : Option Nat)
deriving DecidableEq, Repr

/-- handle_callback (app.py:213-241).  The whole body is inside try/except
whose handler answers the callback with a generic error; the recognized
branches answer first and then run the action handler (each of which catches
its own errors internally). -/
def handle_callback (env : Env) (call : CallbackData) (nowMs : Nat) (hostOffsetMs : Int) :
    List Out × Except String Unit :=
  match call with
  | .malformed => ([.ack "Error processing request"], .ok ())
  | .parsed action jid rid =>
    if action == some "check_status" then
      match jid with
      | none => ([.ack "Error processing request"], .ok ())
      | some id =>
        match (check_job_today_status env id nowMs hostOffsetMs).2 with
        | .ok _ => (.ack "Checking" :: (check_job_today_status env id nowMs hostOffsetMs).1, .ok ())
        | .error _ =>
          (.ack "Checking" :: (check_job_today_status env id nowMs hostOffsetMs).1 ++
            [.ack "Error processing request"], .ok ())
    else if action == some "repair" then
      match rid with
      | none => ([.ack "Error processing request"], .ok ())
      | some id =>
        match (repair_databricks_job env id).2 with
        | .ok _ => (.ack "Repairing" :: (repair_databricks_job env id).1, .ok ())
        | .error _ =>
          (.ack "Repairing" :: (repair_databricks_job env id).1 ++
            [.ack "Error processing request"], .ok ())
    else if action == some "pause" then
      match jid with
      | none => ([.ack "Error processing request"], .ok ())
      | some id =>
        match (toggle_job_schedule env id true).2 with
        | .ok _ => (.ack "Pausing" :: (toggle_job_schedule env id true).1, .ok ())
        | .error _ =>
          (.ack "Pausing" :: (toggle_job_schedule env id true).1 ++
            [.ack "Error processing request"], .ok ())
    else if action == some "resume" then
      match jid with
      | none => ([.ack "Error processing request"], .ok ())
      | some id =>
        match (toggle_job_schedule env id false).2 with
        | .ok _ => (.ack "Resuming" :: (toggle_job_schedule env id false).1, .ok ())
        | .error _ =>
          (.ack "Resuming" :: (toggle_job_schedule env id false).1 ++
            [.ack "Error processing request"], .ok ())
    else ([], .ok ())

/-- Recognized values of the "action" key in handle_callback. -/
def recognized_action (a : Option String) : Bool :=
  a == some "check_status" || a == some "repair" || a == some "pause" || a == some "resume"

/-- Is this output a callback acknowledgment? -/
def is_ack : Out → Bool
  | .ack _ => true
  | _ => false

/-- Number of callback acknowledgments in a trace. -/
def ack_count (outs : List Out) : Nat := (outs.filter is_ack).length

/-- Is this output a remote mutation (job update or run repair)? -/
def is_mutation : Out → Bool
  | .updateCall _ _ => true
  | .repairCall _ => true
  | _ => false

/-- Number of remote mutations in a trace. -/
def mutation_count (outs : List Out) : Nat := (outs.filter is_mutation).length

/-! ## Helper lemmas about the handler boundaries and traces -/

theorem check_status_at_snd (env : Env) (id : Nat) (t : Int) :
    (check_status_at env id t).2 = Except.ok () := by
  unfold check_status_at
  split
  · rfl
  · split
    · rfl
    · split <;> rfl

theorem check_job_today_status_snd (env : Env) (id nowMs : Nat) (off : Int) :
    (check_job_today_status env id nowMs off).2 = Except.ok () :=
  check_status_at_snd env id (date_today nowMs off)

theorem toggle_job_schedule_snd (env : Env) (id : Nat) (p : Bool) :
    (toggle_job_schedule env id p).2 = Except.ok () := by
  unfold toggle_job_schedule
  split
  · rfl
  · split
    · rfl
    · dsimp only
      split <;> rfl

theorem repair_databricks_job_snd (env : Env) (id : Nat) :
    (repair_databricks_job env id).2 = Except.ok () := by
  unfold repair_databricks_job
  split <;> rfl

theorem check_status_at_no_ack (env : Env) (id : Nat) (t : Int) :
    ack_count (check_status_at env id t).1 = 0 := by
  unfold check_status_at
  split
  · rfl
  · split
    · rfl
    · split
      · rfl
      · simp only [classify_run]
        split <;> rfl

theorem check_job_today_status_no_ack (env : Env) (id nowMs : Nat) (off : Int) :
    ack_count (check_job_today_status env id nowMs off).1 = 0 :=
  check_status_at_no_ack env id (date_today nowMs off)

theorem toggle_job_schedule_no_ack (env : Env) (id : Nat) (p : Bool) :
    ack_count (toggle_job_schedule env id p).1 = 0 := by
  unfold toggle_job_schedule
  split
  · rfl
  · split
    · rfl
    · dsimp only
      split <;> rfl

theorem repair_databricks_job_no_ack (env : Env) (id : Nat) :
    ack_count (repair_databricks_job env id).1 = 0 := by
  unfold repair_databricks_job
  split <;> rfl

theorem ack_count_cons (o : Out) (l : List Out) :
    ack_count (o :: l) = (if is_ack o then 1 else 0) + ack_count l := by
  simp only [ack_count, List.filter_cons]
  by_cases h : is_ack o = true
  · simp [h]
    omega
  · simp [h]

/-! ## Concrete environments used as witnesses and counterexamples -/

/-- A current instant: 20:00 UTC on epoch day 20000 (01:30 of day 20001 in
the configured time zone Asia/Kolkata). -/
def nowA : Nat := 86400000 * 20000 + 72000000

/-- A run start: 22:00 UTC on epoch day 20000 = 03:30 of day 20001 in the
configured time zone, hence the same configured-tz calendar date as nowA. -/
def tsA : Nat := 86400000 * 20000 + 79200000

/-- A later instant on the same configured-tz calendar day as nowA: 01:00 UTC
on epoch day 20001 = 06:30 of day 20001 in Asia/Kolkata, after tsA. -/
def nowA2 : Nat := 86400000 * 20001 + 3600000

/-- A run that started at tsA and is still in progress. -/
def runA : Run :=
  { run_id := 42, start_time := some tsA, end_time := none,
    state := { result_state := none, state_message := none } }

/-- A job owned by the configured operator. -/
def jobA : Job :=
  { job_id := 1, creator_user_name := "me@x.com",
    settings := { name := "job1", schedule := none, tasks := [], max_concurrent_runs := 1 } }

/-- Environment with a single owned job whose only run is runA. -/
def envA : Env :=
  { email := "me@x.com",
    list_jobs := .ok [jobA],
    list_runs := fun id => if id = 1 then .ok [runA] else .error "404",
    get_job := fun id => if id = 1 then .ok jobA else .error "404",
    repair_run := fun _ => .error "404",
    update_job := fun _ _ => .error "404" }

/-- Timestamps within one configured-tz calendar day (epoch day 20000 UTC). -/
def tsC : Nat := 86400000 * 20000 + 10000000

/-- End time of the terminal run runC. -/
def endC : Nat := 86400000 * 20000 + 20000000

/-- Current instant on the same configured-tz day as tsC and endC. -/
def nowC : Nat := 86400000 * 20000 + 30000000

/-- A CANCELED run with a terminal end time. -/
def runC : Run :=
  { run_id := 7, start_time := some tsC, end_time := some endC,
    state := { result_state := some RunResultState.CANCELED, state_message := none } }

/-- Environment where the owned job's only run is the canceled runC. -/
def envC : Env := { envA with list_runs := fun id => if id = 1 then .ok [runC] else .error "404" }

/-- A FAILED run that ended today. -/
def runF : Run :=
  { run_id := 9, start_time := some tsC, end_time := some endC,
    state := { result_state := some RunResultState.FAILED, state_message := some "boom" } }

/-- Environment where the owned job's only run is the failed runF. -/
def envF : Env := { envA with list_runs := fun id => if id = 1 then .ok [runF] else .error "404" }

/-- Environment whose job listing raises. -/
def envErr : Env := { envA with list_jobs := .error "boom" }

/-- A schedule that is currently not paused. -/
def schedS : CronSchedule :=
  { quartz_cron_expression := "0 0 12 * * ?", timezone_id := "Asia/Kolkata",
    pause_status := some "UNPAUSED" }

/-- An owned job with a schedule and further settings fields. -/
def jobS : Job :=
  { job_id := 5, creator_user_name := "me@x.com",
    settings := { name := "js", schedule := some schedS, tasks := ["t1", "t2"],
                  max_concurrent_runs := 3 } }

/-- Environment with one owned scheduled job whose update call succeeds. -/
def envS : Env :=
  { email := "me@x.com",
    list_jobs := .ok [jobS],
    list_runs := fun _ => .ok [],
    get_job := fun id => if id = 5 then .ok jobS else .error "404",
    repair_run := fun _ => .error "404",
    update_job := fun _ _ => .ok () }

/-- A scheduled job owned by a different account than the configured operator. -/
def jobForeign : Job :=
  { job_id := 7, creator_user_name := "other@x.com",
    settings := { name := "foreign", schedule := some schedS, tasks := [],
                  max_concurrent_runs := 1 } }

/-- Environment where job 7 belongs to another account, yet is fetchable and
updatable through the remote client. -/
def envX : Env :=
  { email := "me@x.com",
    list_jobs := .ok [],
    list_runs := fun _ => .ok [],
    get_job := fun id => if id = 7 then .ok jobForeign else .error "404",
    repair_run := fun _ => .error "404",
    update_job := fun _ _ => .ok () }

theorem handle_callback_snd (env : Env) (call : CallbackData) (nowMs : Nat) (off : Int) :
    (handle_callback env call nowMs off).2 = Except.ok () := by
  cases call with
  | malformed => rfl
  | parsed a j r =>
    unfold handle_callback
    repeat' split
    all_goals rfl

/-- C9 counterexample: with the host clock in UTC, two classification calls
at 01:30 and 06:30 of the SAME configured-time-zone calendar day, against
unchanged remote data, disagree: the first reports no runs today, the second
reports the running case, because date.today() rolls over at host midnight
rather than at configured-tz midnight. -/
theorem c9_cex :
    tzDateOf nowA = tzDateOf nowA2
    ∧ (check_job_today_status envA 1 nowA 0).1 = [Out.send (Msg.noRunsToday "job1")]
    ∧ (check_job_today_status envA 1 nowA2 0).1 =
        [Out.send (Msg.statusRunning "job1" (DurDisplay.stillRunning (hhmm tsA)) 42)]
    ∧ (check_job_today_status envA 1 nowA 0).1 ≠ (check_job_today_status envA 1 nowA2 0).1 :=
  ⟨by decide, by decide, by decide, by decide⟩

/-- C9 (amended): two status-classification calls against unchanged remote
run data yield the same classification (same case and same selected run)
whenever the value of date.today() on the host clock is unchanged between
them; on the same configured-time-zone calendar day this can fail when host
midnight falls between the calls (see the counterexample). -/
theorem c9_host_day_idempotent (env : Env) (id n1 n2 : Nat) (o1 o2 : Int)
    (h : date_today n1 o1 = date_today n2 o2) :
    check_job_today_status env id n1 o1 = check_job_today_status env id n2 o2 := by
  unfold check_job_today_status
  rw [h]

/-- C9 witness: one hour apart within one host-clock calendar day, envA
classifies identically. -/
theorem c9_amended_witness :
    check_job_today_status envA 1 nowA 0 = check_job_today_status envA 1 (nowA + 3600000) 0 :=
  c9_host_day_idempotent envA 1 nowA (nowA + 3600000) 0 0 (by decide)

/-- C4 counterexample: when the remote job listing raises, the exception
escapes the scheduled-tick / listing-command boundary (the trace is empty:
no error report is sent to the operator, and under the source main loop the
process crashes, so future ticks do not fire). -/
theorem c4_cex : databricks_job_notification envErr 0 0 = ([], Except.error "boom") := rfl

/-- C4 (amended): the callback-tap boundary always catches and returns
control (every dispatched action has its own catch-and-report), but the
listing commands and the scheduled failure scan have no boundary: a
remote-listing error escapes them with no message sent. -/
theorem c4_boundary_policy (env : Env) (call : CallbackData) (nowMs : Nat) (off : Int) :
    (handle_callback env call nowMs off).2 = Except.ok ()
    ∧ (∀ e, env.list_jobs = .error e →
        databricks_job_notification env nowMs off = ([], .error e)
        ∧ send_job_list env = ([], .error e)
        ∧ send_pause_job_list env = ([], .error e)) := by
  refine ⟨handle_callback_snd env call nowMs off, fun e h => ⟨?_, ?_, ?_⟩⟩
  · simp [databricks_job_notification, scan_at, h]
  · simp [send_job_list, h]
  · simp [send_pause_job_list, h]

/-- C4 witness: instantiating the boundary policy at envErr. -/
theorem c4_witness :
    (handle_callback envErr CallbackData.malformed 0 0).2 = Except.ok ()
    ∧ send_job_list envErr = ([], Except.error "boom") :=
  ⟨(c4_boundary_policy envErr CallbackData.malformed 0 0).1,
   ((c4_boundary_policy envErr CallbackData.malformed 0 0).2 "boom" rfl).2.1⟩

/-- C2 counterexample: a parseable payload with an unrecognized action value
is never acknowledged (zero acknowledgments, not one) and produces no
output at all. -/
theorem c2_cex :
    ack_count (handle_callback envA (CallbackData.parsed (some "noop") none none) 0 0).1 = 0
    ∧ (handle_callback envA (CallbackData.parsed (some "noop") none none) 0 0).1 = [] :=
  ⟨rfl, rfl⟩

/-- C2 (amended): a malformed payload or a payload with a recognized action
is acknowledged exactly once, regardless of whether the underlying remote
calls succeed or fail; a malformed payload is acknowledged with the generic
error indicator and causes no remote mutation; but a parseable payload whose
action is unrecognized is not acknowledged at all (and causes no action). -/
theorem c2_ack_policy (env : Env) (call : CallbackData) (nowMs : Nat) (off : Int) :
    (ack_count (handle_callback env call nowMs off).1 =
      match call with
      | .malformed => 1
      | .parsed a _ _ => if recognized_action a then 1 else 0)
    ∧ (∀ a j r, call = CallbackData.parsed a j r → recognized_action a = false →
        (handle_callback env call nowMs off).1 = [])
    ∧ (call = CallbackData.malformed →
        (handle_callback env call nowMs off).1 = [Out.ack "Error processing request"]
        ∧ mutation_count (handle_callback env call nowMs off).1 = 0) := by
  refine ⟨?_, ?_, ?_⟩
  · cases call with
    | malformed => rfl
    | parsed a j r =>
      dsimp only
      by_cases h1 : (a == some "check_status") = true
      · have hr : recognized_action a = true := by simp [recognized_action, h1]
        rw [if_pos hr]
        cases j with
        | none => simp [handle_callback, h1, ack_count, is_ack]
        | some id =>
          simp only [handle_callback, h1, if_true]
          rw [check_job_today_status_snd]
          rw [ack_count_cons, check_job_today_status_no_ack]
          rfl
      · by_cases h2 : (a == some "repair") = true
        · have hr : recognized_action a = true := by simp [recognized_action, h2]
          rw [if_pos hr]
          cases r with
          | none => simp [handle_callback, h1, h2, ack_count, is_ack]
          | some id =>
            simp only [handle_callback, h1, h2, if_true, Bool.false_eq_true, if_false]
            rw [repair_databricks_job_snd]
            rw [ack_count_cons, repair_databricks_job_no_ack]
            rfl
        · by_cases h3 : (a == some "pause") = true
          · have hr : recognized_action a = true := by simp [recognized_action, h3]
            rw [if_pos hr]
            cases j with
            | none => simp [handle_callback, h1, h2, h3, ack_count, is_ack]
            | some id =>
              simp only [handle_callback, h1, h2, h3, if_true, Bool.false_eq_true, if_false]
              rw [toggle_job_schedule_snd]
              rw [ack_count_cons, toggle_job_schedule_no_ack]
              rfl
          · by_cases h4 : (a == some "resume") = true
            · have hr : recognized_action a = true := by simp [recognized_action, h4]
              rw [if_pos hr]
              cases j with
              | none => simp [handle_callback, h1, h2, h3, h4, ack_count, is_ack]
              | some id =>
                simp only [handle_callback, h1, h2, h3, h4, if_true, Bool.false_eq_true, if_false]
                rw [toggle_job_schedule_snd]
                rw [ack_count_cons, toggle_job_schedule_no_ack]
                rfl
            · have hr : recognized_action a = false := by
                simp [recognized_action, h1, h2, h3, h4]
              rw [if_neg (by simp [hr])]
              simp [handle_callback, h1, h2, h3, h4, ack_count]
  · intro a j r hcall hunrec
    subst hcall
    have hall := hunrec
    simp [recognized_action] at hall
    obtain ⟨⟨⟨hA, hB⟩, hC⟩, hD⟩ := hall
    simp [handle_callback, hA, hB, hC, hD]
  · intro h
    subst h
    exact ⟨rfl, rfl⟩

/-- C2 witness: a malformed payload in envA is acknowledged exactly once with
the generic error indicator and causes no remote mutation. -/
theorem c2_witness :
    (handle_callback envA CallbackData.malformed 0 0).1 = [Out.ack "Error processing request"]
    ∧ mutation_count (handle_callback envA CallbackData.malformed 0 0).1 = 0 :=
  (c2_ack_policy envA CallbackData.malformed 0 0).2.2 rfl

/-- C1 counterexample: with the host clock in UTC (offset 0), a run whose
start time falls on the current calendar date of the configured time zone
(tzDateOf tsA = tzDateOf nowA) is nevertheless excluded by the status
classification, because the code compares against date.today() computed in
the host time zone, not the configured one. -/
theorem c1_cex :
    envA.list_runs 1 = Except.ok [runA]
    ∧ runA.start_time = some tsA
    ∧ tzDateOf tsA = tzDateOf nowA
    ∧ (check_job_today_status envA 1 nowA 0).1 = [Out.send (Msg.noRunsToday "job1")] :=
  ⟨rfl, rfl, by decide, by decide⟩

/-- C1 (amended): a run counts as belonging to today exactly when its
timestamp (start time for status classification, end time for the failure
scan), converted to the configured time zone, falls on the calendar date
produced by date.today() on the HOST clock and host time zone; this equals
the configured-tz current date only when the host date agrees with it. -/
theorem c1_today_is_host_date (env : Env) (id : Nat) (now : Nat) (off : Int)
    (job : Job) (runs : List Run)
    (h1 : env.get_job id = Except.ok job) (h2 : env.list_runs id = Except.ok runs) :
    ((check_job_today_status env id now off).1 = [Out.send (Msg.noRunsToday job.settings.name)] ↔
      ∀ r ∈ runs, ¬(optTruthy r.start_time = true ∧
        tzDateOf (r.start_time.getD 0) = date_today now off))
    ∧ (∀ r : Run, run_failed_today (date_today now off) r = true ↔
        (r.state.result_state = some RunResultState.FAILED ∧ optTruthy r.end_time = true ∧
          tzDateOf (r.end_time.getD 0) = date_today now off)) := by
  constructor
  · unfold check_job_today_status check_status_at
    rw [h1, h2]
    dsimp only
    cases hrt : runs_today_of runs (date_today now off) with
    | nil =>
      simp only [true_iff, List.cons.injEq, and_true]
      intro r hr
      have := List.filter_eq_nil_iff.mp hrt r hr
      simpa [run_starts_today] using this
    | cons r0 rest =>
      have hr0 : r0 ∈ runs_today_of runs (date_today now off) := by
        rw [hrt]; exact List.mem_cons_self r0 rest
      have hmem := List.mem_filter.mp hr0
      constructor
      · intro heq
        exfalso
        have heq1 : classify_run job.settings.name (latest_run r0 rest) =
            Out.send (Msg.noRunsToday job.settings.name) := by
          simpa using heq
        cases hrs : (latest_run r0 rest).state.result_state with
        | none => simp [classify_run, hrs] at heq1
        | some s => cases s <;> simp [classify_run, hrs] at heq1
      · intro hall
        exfalso
        have hpred := hmem.2
        simp only [run_starts_today, Bool.and_eq_true, decide_eq_true_eq] at hpred
        exact hall r0 hmem.1 ⟨hpred.1, hpred.2⟩
  · intro r
    simp [run_failed_today, and_assoc]

/-- C1 witness: with the host clock set to the configured time zone offset,
runA does start today, so envA is not classified as having no runs today. -/
theorem c1_witness :
    (check_job_today_status envA 1 nowA 19800000).1 ≠ [Out.send (Msg.noRunsToday "job1")] := by
  intro heq
  have h := (c1_today_is_host_date envA 1 nowA 19800000 jobA [runA] rfl rfl).1
  have hr := h.mp heq runA (by decide)
  exact hr (by decide)

/-- C5 counterexample: runC is the most-recently-started run today, carries a
terminal end time (optTruthy its end_time), its result is CANCELED, and the
status check nevertheless reports the RUNNING case (with a start-to-end
range, not an elapsed-to-now display). -/
theorem c5_cex :
    optTruthy runC.end_time = true
    ∧ runC.state.result_state = some RunResultState.CANCELED
    ∧ (check_job_today_status envC 1 nowC 19800000).1 =
        [Out.send (Msg.statusRunning "job1" (DurDisplay.range (hhmm tsC) (hhmm endC)) 7)] :=
  ⟨rfl, rfl, by decide⟩

/-- C5 (amended): the status check reports the RUNNING case exactly when the
most-recently-started run of today has a result state that is neither
SUCCESS nor FAILED (regardless of its end time); the still-running elapsed
display is chosen exactly when the end time is absent or zero. -/
theorem c5_running_iff (env : Env) (id : Nat) (now : Nat) (off : Int)
    (job : Job) (runs : List Run) (r0 : Run) (rest : List Run)
    (h1 : env.get_job id = Except.ok job) (h2 : env.list_runs id = Except.ok runs)
    (h3 : runs_today_of runs (date_today now off) = r0 :: rest) :
    ((check_job_today_status env id now off).1 =
        [Out.send (Msg.statusRunning job.settings.name (dur_display (latest_run r0 rest))
          (latest_run r0 rest).run_id)]
      ↔ ((latest_run r0 rest).state.result_state ≠ some RunResultState.SUCCESS ∧
          (latest_run r0 rest).state.result_state ≠ some RunResultState.FAILED))
    ∧ (dur_display (latest_run r0 rest) =
          DurDisplay.stillRunning (hhmm ((latest_run r0 rest).start_time.getD 0))
        ↔ optTruthy (latest_run r0 rest).end_time = false) := by
  constructor
  · unfold check_job_today_status check_status_at
    rw [h1, h2]
    dsimp only
    rw [h3]
    cases hrs : (latest_run r0 rest).state.result_state with
    | none => simp [classify_run, hrs]
    | some s => cases s <;> simp [classify_run, hrs]
  · unfold dur_display
    cases he : optTruthy (latest_run r0 rest).end_time <;> simp [he]

/-- C5 witness: instantiating the amended characterization at envC, whose
latest run today is the canceled runC. -/
theorem c5_witness :
    (check_job_today_status envC 1 nowC 19800000).1 =
      [Out.send (Msg.statusRunning "job1" (dur_display (latest_run runC []))
        (latest_run runC []).run_id)] :=
  ((c5_running_iff envC 1 nowC 19800000 jobA [runC] runC [] rfl rfl (by decide)).1).mpr
    ⟨by decide, by decide⟩

/-- Rendering of a list of failed entries whose start and end times are all
present: one message per entry, carrying a repair action keyed by its run id. -/
theorem render_failed_all_some (fs : List FEntry)
    (h : ∀ f ∈ fs, f.start ≠ none ∧ f.endT ≠ none) :
    render_failed fs =
      (fs.map (fun f => Out.send (Msg.failedEntry f.job f.run_id (hhmm (f.start.getD 0))
        (hhmm (f.endT.getD 0)) (BtnAction.repair f.run_id))), Except.ok ()) := by
  induction fs with
  | nil => rfl
  | cons f rest ih =>
    obtain ⟨hs, he⟩ := h f (List.mem_cons_self f rest)
    have ihr := ih (fun g hg => h g (List.mem_cons_of_mem f hg))
    cases hfs : f.start with
    | none => exact absurd hfs hs
    | some s =>
      cases hfe : f.endT with
      | none => exact absurd hfe he
      | some e =>
        simp [render_failed, hfs, hfe, ihr]

/-- C6: a failure-scan invocation that completes (job listing and run
listings succeed, every collected entry has its times present) sends, when
zero FAILED runs ended today, exactly one positive message; and when n of
them did, exactly one count-summary message followed by exactly one message
per failing run, each carrying a repair action keyed by that run's id. -/
theorem c6_scan_messages (env : Env) (now : Nat) (off : Int) (js : List Job) (fs : List FEntry)
    (h1 : env.list_jobs = Except.ok js)
    (h2 : collect_failed_jobs env (date_today now off) js = Except.ok fs)
    (h3 : ∀ f ∈ fs, f.start ≠ none ∧ f.endT ≠ none) :
    (fs = [] → databricks_job_notification env now off = ([Out.send Msg.noFailures], Except.ok ()))
    ∧ (fs ≠ [] → databricks_job_notification env now off =
        (Out.send (Msg.failedSummary fs.length) ::
          fs.map (fun f => Out.send (Msg.failedEntry f.job f.run_id (hhmm (f.start.getD 0))
            (hhmm (f.endT.getD 0)) (BtnAction.repair f.run_id))),
         Except.ok ())) := by
  unfold databricks_job_notification scan_at
  rw [h1]
  dsimp only
  rw [h2]
  cases fs with
  | nil => exact ⟨fun _ => rfl, fun hne => absurd rfl hne⟩
  | cons f rest =>
    refine ⟨fun hceq => absurd hceq (List.cons_ne_nil f rest), fun _ => ?_⟩
    dsimp only
    rw [render_failed_all_some (f :: rest) h3]

/-- C6 witness: in envF, one owned job with one FAILED run ending today
yields exactly one count summary plus one per-run message with a repair
action keyed to run 9. -/
theorem c6_witness :
    databricks_job_notification envF nowC 19800000 =
      ([Out.send (Msg.failedSummary 1),
        Out.send (Msg.failedEntry "job1" 9 (hhmm tsC) (hhmm endC) (BtnAction.repair 9))],
       Except.ok ()) :=
  (c6_scan_messages envF nowC 19800000 [jobA]
    [{ job := "job1", run_id := 9, start := some tsC, endT := some endC }] rfl rfl
    (by decide)).2 (by decide)

/-- C7: on a dispatched pause or resume, the fetched job is inspected; with
no schedule the dispatcher reports "no schedule" and performs no update (its
whole trace is that one message); with a schedule it pushes exactly one
update whose settings set the requested pause state, and reports success
with the job's display name and the verb used when the update succeeds (or
the caught error otherwise). -/
theorem c7_toggle_schedule (env : Env) (id : Nat) (pause : Bool) (job : Job)
    (h : env.get_job id = Except.ok job) :
    (job.settings.schedule = none →
      toggle_job_schedule env id pause = ([Out.send (Msg.noSchedule id)], Except.ok ()))
    ∧ (∀ s, job.settings.schedule = some s →
        (toggle_job_schedule env id pause).1 =
          Out.updateCall id
            { job.settings with
              schedule := some { s with
                pause_status := some (if pause then "PAUSED" else "UNPAUSED") } } ::
          (match env.update_job id
              { job.settings with
                schedule := some { s with
                  pause_status := some (if pause then "PAUSED" else "UNPAUSED") } } with
           | .ok _ =>
              [Out.send (Msg.scheduleToggled job.settings.name
                (if pause then "paused" else "resumed"))]
           | .error e => [Out.send (Msg.toggleError e)])) := by
  constructor
  · intro hn
    unfold toggle_job_schedule
    rw [h]
    dsimp only
    rw [hn]
  · intro s hs
    unfold toggle_job_schedule
    rw [h]
    dsimp only
    rw [hs]
    dsimp only
    cases hu : env.update_job id
        { job.settings with
          schedule := some { s with
            pause_status := some (if pause then "PAUSED" else "UNPAUSED") } } with
    | error e => rfl
    | ok u => rfl

/-- C7 witness: pausing jobS through envS pushes the updated settings and
reports success with the display name and the verb "paused". -/
theorem c7_witness :
    (toggle_job_schedule envS 5 true).1 =
      [Out.updateCall 5
        { jobS.settings with
          schedule := some { schedS with pause_status := some "PAUSED" } },
       Out.send (Msg.scheduleToggled "js" "paused")] :=
  (c7_toggle_schedule envS 5 true jobS rfl).2 schedS rfl

/-- C10: when the fetched job carries a schedule, the settings pushed by the
toggle are exactly the fetched settings with only the schedule's
pause_status field changed: name, tasks, max_concurrent_runs and the
schedule's cron expression and time zone are all sent back unchanged. -/
theorem c10_update_frame (env : Env) (id : Nat) (pause : Bool) (job : Job) (s : CronSchedule)
    (h1 : env.get_job id = Except.ok job) (h2 : job.settings.schedule = some s) :
    ∃ ns : JobSettings,
      (toggle_job_schedule env id pause).1.head? = some (Out.updateCall id ns)
      ∧ ns.name = job.settings.name
      ∧ ns.tasks = job.settings.tasks
      ∧ ns.max_concurrent_runs = job.settings.max_concurrent_runs
      ∧ ns.schedule = some { quartz_cron_expression := s.quartz_cron_expression,
                             timezone_id := s.timezone_id,
                             pause_status := some (if pause then "PAUSED" else "UNPAUSED") } := by
  refine ⟨{ job.settings with
            schedule := some { s with
              pause_status := some (if pause then "PAUSED" else "UNPAUSED") } },
          ?_, rfl, rfl, rfl, rfl⟩
  unfold toggle_job_schedule
  rw [h1]
  dsimp only
  rw [h2]
  dsimp only
  cases hu : env.update_job id
      { job.settings with
        schedule := some { s with
          pause_status := some (if pause then "PAUSED" else "UNPAUSED") } } with
  | error e => rfl
  | ok u => rfl

/-- C10 witness: resuming jobS pushes settings identical to the fetched ones
except for the schedule's pause_status. -/
theorem c10_witness :
    ∃ ns : JobSettings,
      (toggle_job_schedule envS 5 false).1.head? = some (Out.updateCall 5 ns)
      ∧ ns.name = jobS.settings.name
      ∧ ns.tasks = jobS.settings.tasks
      ∧ ns.max_concurrent_runs = jobS.settings.max_concurrent_runs
      ∧ ns.schedule = some { quartz_cron_expression := schedS.quartz_cron_expression,
                             timezone_id := schedS.timezone_id,
                             pause_status := some "UNPAUSED" } :=
  c10_update_frame envS 5 false jobS schedS rfl rfl

/-- C8: every owned job is rendered by the /pause listing with its chosen
action, and that action is pause exactly when the job has a schedule whose
pause_status is not already "PAUSED"; in every other case (already paused,
or no schedule at all) it is resume. -/
theorem c8_pause_action (env : Env) (js : List Job) (j : Job)
    (h1 : env.list_jobs = Except.ok js) (h2 : j ∈ js)
    (h3 : j.creator_user_name = env.email) :
    Out.send (Msg.jobEntry j.settings.name j.job_id
        (pause_action_for j.job_id j.settings.schedule)) ∈ (send_pause_job_list env).1
    ∧ (pause_action_for j.job_id j.settings.schedule = BtnAction.pause j.job_id ↔
        ∃ s, j.settings.schedule = some s ∧ s.pause_status ≠ some "PAUSED")
    ∧ (pause_action_for j.job_id j.settings.schedule = BtnAction.resume j.job_id ↔
        ¬∃ s, j.settings.schedule = some s ∧ s.pause_status ≠ some "PAUSED") := by
  refine ⟨?_, ?_, ?_⟩
  · have hj : j ∈ owned_jobs env js := by
      refine List.mem_filter.mpr ⟨h2, ?_⟩
      simp [h3]
    unfold send_pause_job_list
    rw [h1]
    dsimp only
    cases howned : owned_jobs env js with
    | nil => rw [howned] at hj; cases hj
    | cons a as =>
      rw [howned] at hj
      simp only [List.isEmpty_cons, Bool.false_eq_true, if_false]
      exact List.mem_cons_of_mem _ (List.mem_map_of_mem _ hj)
  · unfold pause_action_for
    cases hsched : j.settings.schedule with
    | none => simp
    | some s =>
      by_cases hp : (s.pause_status != some "PAUSED") = true
      · simp only [hp, if_true]
        simp only [true_iff]
        exact ⟨s, rfl, by simpa using hp⟩
      · simp only [hp, Bool.false_eq_true, if_false]
        constructor
        · intro habs
          cases habs
        · intro ⟨s2, hs2, hne⟩
          exfalso
          obtain rfl : s = s2 := by injection hs2
          exact hne (by simpa using hp)
  · unfold pause_action_for
    cases hsched : j.settings.schedule with
    | none =>
      simp
    | some s =>
      by_cases hp : (s.pause_status != some "PAUSED") = true
      · simp only [hp, if_true]
        constructor
        · intro habs
          cases habs
        · intro hno
          exact absurd ⟨s, rfl, by simpa using hp⟩ hno
      · simp only [hp, Bool.false_eq_true, if_false]
        constructor
        · intro _ habs
          obtain ⟨s2, hs2, hne⟩ := habs
          obtain rfl : s = s2 := by injection hs2
          exact hne (by simpa using hp)
        · intro _
          trivial

/-- C8 witness: jobS (schedule present, not paused) is rendered by the
/pause listing with its chosen action. -/
theorem c8_witness :
    Out.send (Msg.jobEntry "js" 5 (pause_action_for 5 jobS.settings.schedule)) ∈
      (send_pause_job_list envS).1 :=
  (c8_pause_action envS [jobS] jobS rfl (by decide) rfl).1

/-- C3 counterexample: job 7 is owned by another account, yet a dispatched
pause action on it goes through: the dispatcher performs a remote update
mutation targeting the non-owned job (no ownership check at dispatch). -/
theorem c3_cex :
    jobForeign.creator_user_name ≠ envX.email
    ∧ envX.get_job 7 = Except.ok jobForeign
    ∧ Out.updateCall 7
        { jobForeign.settings with
          schedule := some { schedS with pause_status := some "PAUSED" } }
        ∈ (handle_callback envX (CallbackData.parsed (some "pause") (some 7) none) 0 0).1
    ∧ mutation_count
        (handle_callback envX (CallbackData.parsed (some "pause") (some 7) none) 0 0).1 = 1 :=
  ⟨by decide, rfl, by decide, rfl⟩

/-- Every entry collected by the failure scan comes from a job owned by the
configured operator identity. -/
theorem collect_failed_jobs_ownership (env : Env) (today : Int) (js : List Job)
    (fs : List FEntry) (h2 : collect_failed_jobs env today js = Except.ok fs)
    (f : FEntry) (hf : f ∈ fs) :
    ∃ j, j ∈ js ∧ j.creator_user_name = env.email ∧ f.job = j.settings.name := by
  induction js generalizing fs with
  | nil =>
    unfold collect_failed_jobs at h2
    injection h2 with h
    rw [← h] at hf
    cases hf
  | cons j rest ih =>
    unfold collect_failed_jobs at h2
    by_cases hc : (j.creator_user_name == env.email) = true
    · rw [if_pos hc] at h2
      cases hl : env.list_runs j.job_id with
      | error e => rw [hl] at h2; cases h2
      | ok runs =>
        rw [hl] at h2
        cases hrec : collect_failed_jobs env today rest with
        | error e => rw [hrec] at h2; cases h2
        | ok fs2 =>
          rw [hrec] at h2
          injection h2 with hfs
          rw [← hfs] at hf
          rcases List.mem_append.mp hf with hL | hR
          · unfold job_failures at hL
            obtain ⟨r, hr, hfr⟩ := List.mem_map.mp hL
            refine ⟨j, List.mem_cons_self j rest, by simpa using hc, ?_⟩
            rw [← hfr]
          · obtain ⟨j2, hj2, hcreator, hname⟩ := ih fs2 hrec hR
            exact ⟨j2, List.mem_cons_of_mem _ hj2, hcreator, hname⟩
    · rw [if_neg hc] at h2
      obtain ⟨j2, hj2, hcreator, hname⟩ := ih fs h2 hf
      exact ⟨j2, List.mem_cons_of_mem _ hj2, hcreator, hname⟩

/-- C3 (amended): the ownership filter is total on every LISTING: each
per-job message of /jobs and /pause and each entry collected by the failure
scan comes from a job owned by the configured operator identity.  (The
dispatcher itself performs no ownership check on action payloads, as the
counterexample shows.) -/
theorem c3_listing_ownership (env : Env) (js : List Job)
    (h1 : env.list_jobs = Except.ok js) :
    (∀ name id btn, Out.send (Msg.jobEntry name id btn) ∈ (send_job_list env).1 →
      ∃ j, j ∈ js ∧ j.creator_user_name = env.email ∧ j.job_id = id ∧ j.settings.name = name)
    ∧ (∀ name id btn, Out.send (Msg.jobEntry name id btn) ∈ (send_pause_job_list env).1 →
      ∃ j, j ∈ js ∧ j.creator_user_name = env.email ∧ j.job_id = id ∧ j.settings.name = name)
    ∧ (∀ today fs f, collect_failed_jobs env today js = Except.ok fs → f ∈ fs →
      ∃ j, j ∈ js ∧ j.creator_user_name = env.email ∧ f.job = j.settings.name) := by
  refine ⟨?_, ?_, fun today fs f h2 hf => collect_failed_jobs_ownership env today js fs h2 f hf⟩
  · intro name id btn hmem
    unfold send_job_list at hmem
    rw [h1] at hmem
    dsimp only at hmem
    cases howned : owned_jobs env js with
    | nil => rw [howned] at hmem; simp at hmem
    | cons a as =>
      rw [howned] at hmem
      simp only [List.isEmpty_cons, Bool.false_eq_true, if_false] at hmem
      simp only [List.mem_cons, List.mem_map] at hmem
      rcases hmem with habs | ⟨x, hx, heq⟩
      · simp at habs
      · have hx2 : x ∈ owned_jobs env js := by
          rw [howned]
          exact List.mem_cons.mpr hx
        have hxf := List.mem_filter.mp hx2
        simp only [Out.send.injEq, Msg.jobEntry.injEq] at heq
        exact ⟨x, hxf.1, by simpa using hxf.2, heq.2.1, heq.1⟩
  · intro name id btn hmem
    unfold send_pause_job_list at hmem
    rw [h1] at hmem
    dsimp only at hmem
    cases howned : owned_jobs env js with
    | nil => rw [howned] at hmem; simp at hmem
    | cons a as =>
      rw [howned] at hmem
      simp only [List.isEmpty_cons, Bool.false_eq_true, if_false] at hmem
      simp only [List.mem_cons, List.mem_map] at hmem
      rcases hmem with habs | ⟨x, hx, heq⟩
      · simp at habs
      · have hx2 : x ∈ owned_jobs env js := by
          rw [howned]
          exact List.mem_cons.mpr hx
        have hxf := List.mem_filter.mp hx2
        simp only [Out.send.injEq, Msg.jobEntry.injEq] at heq
        exact ⟨x, hxf.1, by simpa using hxf.2, heq.2.1, heq.1⟩

/-- C3 witness: the /jobs listing of envS renders the owned job 5, which the
ownership theorem traces back to an operator-owned job. -/
theorem c3_witness :
    ∃ j, j ∈ [jobS] ∧ j.creator_user_name = envS.email ∧ j.job_id = 5
      ∧ j.settings.name = "js" :=
  (c3_listing_ownership envS [jobS] rfl).1 "js" 5 (BtnAction.check_status 5) (by decide)
